import Mathlib

/-!
Verification development for passchange.py, a bulk IPMI password-rotation
script.  The script's interaction with the outside world (the ipmitool
subprocess invocations) is modelled by oracles: each external command
invocation is abstracted as an `ExecResult` (a timeout, or an exited process
with return code, decoded stdout and decoded stderr).  All control flow,
string parsing and classification logic of the script is translated
faithfully from the source.
-/

namespace PassChange

/-- Configuration constant COMMAND_TIMEOUT from the source (seconds). -/
def COMMAND_TIMEOUT : Nat := 15

/-- Configuration constant MAX_CONCURRENT from the source (semaphore capacity). -/
def MAX_CONCURRENT : Nat := 10

/-- Configuration constant RETRIES from the source: how many retries on failure. -/
def RETRIES : Nat := 1

/-- Result of one external ipmitool invocation: either the asyncio timeout
fired, or the process exited with a return code, decoded and stripped-at-use
stdout and stderr. -/
inductive ExecResult where
  | timeout : ExecResult
  | exited : Int → String → String → ExecResult
  deriving DecidableEq

/-- Python str.strip on a character list: drop whitespace at both ends. -/
def pystripList (cs : List Char) : List Char :=
  ((cs.dropWhile Char.isWhitespace).reverse.dropWhile Char.isWhitespace).reverse

/-- Python str.strip, written with structural recursion so that it evaluates
by kernel reduction. -/
def pystrip (s : String) : String := ⟨pystripList s.data⟩

/-- Python str.lower (ASCII case folding, sufficient for the patterns the
script compares). -/
def pylower (s : String) : String := ⟨s.data.map Char.toLower⟩

/-- Whether the first character list is an initial segment of the second. -/
def leadsWith : List Char → List Char → Bool
  | [], _ => true
  | _ :: _, [] => false
  | p :: ps, c :: cs => p == c && leadsWith ps cs

/-- Whether pat occurs as a contiguous run inside s. -/
def containsSub : List Char → List Char → Bool
  | [], pat => pat.isEmpty
  | c :: rest, pat => leadsWith pat (c :: rest) || containsSub rest pat

/-- Python substring test `pat in s`. -/
def containsStr (s pat : String) : Bool := containsSub s.data pat.data

/-- Python str.split on a single separator character: splitting the empty
string yields one empty piece, and every separator occurrence starts a new
piece. -/
def splitOnCharList (sep : Char) : List Char → List (List Char)
  | [] => [[]]
  | c :: rest =>
    if c == sep then [] :: splitOnCharList sep rest
    else
      match splitOnCharList sep rest with
      | [] => [[c]]
      | h :: t => (c :: h) :: t

/-- Python str.split with a one-character separator, on strings. -/
def pysplitChar (s : String) (sep : Char) : List String :=
  (splitOnCharList sep s.data).map (fun l => ⟨l⟩)

/-- Argument vector built by change_ipmi_password (source lines 23-30). -/
def change_ipmi_password_cmd (ip username old_admin_password user_id new_password : String) :
    List String :=
  ["ipmitool", "-I", "lanplus", "-H", ip, "-U", username, "-P", old_admin_password,
   "user", "set", "password", user_id, new_password]

/-- change_ipmi_password (source lines 22-67), given the outcome of its one
external command.  Mirrors the timeout branch, the exit-code-0 branch with its
stdout marker test, and the ordered stderr classification chain.  The returned
triple is (success, ip, message) exactly as in the source. -/
def change_ipmi_password (ip : String) (res : ExecResult) : Bool × String × String :=
  match res with
  | ExecResult.timeout => (false, ip, "Timeout (command took too long)")
  | ExecResult.exited rc out err =>
    let stdout := (pystrip out)
    let stderr := (pystrip err)
    if rc = 0 then
      if containsStr stdout "Password" || containsStr stdout "Set User" then
        (true, ip, "Password changed successfully")
      else
        (false, ip, "Unexpected success output: " ++ stdout)
    else
      if containsStr stderr "Unauthorized" || containsStr (pylower stderr) "password" then
        (false, ip, "Authentication failed")
      else if containsStr (pylower stderr) "hostname" || containsStr (pylower stderr) "could not resolve" then
        (false, ip, "Host unreachable or DNS failure")
      else if containsStr (pylower stderr) "unable to establish" then
        (false, ip, "Connection failed")
      else if containsStr stderr "Invalid user id" then
        (false, ip, "Invalid user ID (wrong user slot?)")
      else
        (false, ip, "IPMI Error: " ++ stderr)

/-- Spec-side taxonomy of command outcomes (section 7 of the spec). -/
inductive Classification where
  | success : Classification
  | unexpectedOutput : Classification
  | authenticationFailed : Classification
  | hostUnreachable : Classification
  | connectionFailed : Classification
  | invalidSlot : Classification
  | genericCommandError : Classification
  | timeoutKind : Classification
  deriving DecidableEq

/-- Spec-side ordered list of (substring rule, classification) pairs for
non-zero exit codes, written from the spec words: authorization/password
text, then hostname-resolution text, then connection-establishment text,
then invalid-slot text. -/
def stderr_rules : List ((String → Bool) × Classification) :=
  [ (fun e => containsStr e "Unauthorized" || containsStr (pylower e) "password",
     Classification.authenticationFailed),
    (fun e => containsStr (pylower e) "hostname" || containsStr (pylower e) "could not resolve",
     Classification.hostUnreachable),
    (fun e => containsStr (pylower e) "unable to establish",
     Classification.connectionFailed),
    (fun e => containsStr e "Invalid user id",
     Classification.invalidSlot) ]

/-- Spec-side classifier: first matching rule wins, otherwise the generic
command error. -/
def classify_stderr (e : String) : Classification :=
  match stderr_rules.find? (fun r => r.1 e) with
  | some r => r.2
  | none => Classification.genericCommandError

/-- Message produced by the source for each non-zero-exit classification;
the generic class carries the raw (stripped) stderr text. -/
def classification_message (c : Classification) (stderr : String) : String :=
  match c with
  | Classification.authenticationFailed => "Authentication failed"
  | Classification.hostUnreachable => "Host unreachable or DNS failure"
  | Classification.connectionFailed => "Connection failed"
  | Classification.invalidSlot => "Invalid user ID (wrong user slot?)"
  | Classification.genericCommandError => "IPMI Error: " ++ stderr
  | _ => ""

/-- Argument vector built by find_user_id (source lines 70-78). -/
def find_user_id_cmd (ip username password : String) : List String :=
  ["ipmitool", "-I", "lanplus", "-H", ip, "-U", username, "-P", password,
   "-c", "user", "list"]

/-- One line of the `user list` output: strip it, split on commas, and keep
lines having at least two fields as (stripped id, stripped name)
(source lines 109-112). -/
def parseUserLine (line : String) : Option (String × String) :=
  match pysplitChar (pystrip line) ',' with
  | p0 :: p1 :: _ => some (pystrip p0, pystrip p1)
  | _ => none

/-- Loop body of find_user_id (source lines 108-117): a case-insensitive name
match overwrites user_id; an empty name appends the id to the free list. -/
def userListStep (target : String) (acc : Option String × List String) (line : String) :
    Option String × List String :=
  match parseUserLine line with
  | none => acc
  | some p =>
    (if pylower p.2 = pylower target then some p.1 else acc.1,
     if p.2 = "" then acc.2 ++ [p.1] else acc.2)

/-- Parse the full `user list` output: skip the first (header) line and fold
the loop body over the rest (source lines 104-119). -/
def parse_user_list (target : String) (lines : List String) : Option String × List String :=
  List.foldl (userListStep target) ((none, []) : Option String × List String) (lines.drop 1)

/-- Python str.splitlines on an already stripped string, with the convention
that the empty string yields no lines (the script only produces newline
separated output here). -/
def splitLines (s : String) : List String := if s = "" then [] else pysplitChar s '\n'

/-- find_user_id (source lines 69-122), given the outcome of its one external
command.  Returns (user_id, free_ids, error) as in the source: errors carry no
data, success carries the parsed listing. -/
def find_user_id (res : ExecResult) (target : String) :
    Option String × Option (List String) × Option String :=
  match res with
  | ExecResult.timeout => (none, none, some "Timeout getting user list")
  | ExecResult.exited rc out err =>
    let stdout := (pystrip out)
    let stderr := (pystrip err)
    if rc ≠ 0 then (none, none, some ("Error running user list: " ++ stderr))
    else
      let lines := splitLines stdout
      if lines = [] then (none, none, some "No output from ipmitool")
      else
        ((parse_user_list target lines).1, some (parse_user_list target lines).2, none)

/-- Spec-side helper: the free-slot id contributed by one output line (an id
whose name field is present and empty). -/
def freeOf (line : String) : Option String :=
  match parseUserLine line with
  | some p => if p.2 = "" then some p.1 else none
  | none => none

/-- Spec-side helper: the id contributed by one output line whose name field
matches the target account name case-insensitively. -/
def matchOf (target line : String) : Option String :=
  match parseUserLine line with
  | some p => if pylower p.2 = pylower target then some p.1 else none
  | none => none

/-- Spec-side helper: the user_id component of the fold, in isolation. -/
def uidFold (target : String) (u : Option String) (ls : List String) : Option String :=
  List.foldl (fun a l => match matchOf target l with
    | some i => some i
    | none => a) u ls

/-- The four argument vectors built by create_user, in source order
(source lines 125-157): set slot name, enable slot, grant privilege,
set slot password. -/
def create_user_cmds (ip username password free_id new_user_password target : String) :
    List (List String) :=
  [ ["ipmitool", "-I", "lanplus", "-H", ip, "-U", username, "-P", password,
     "user", "set", "name", free_id, target],
    ["ipmitool", "-I", "lanplus", "-H", ip, "-U", username, "-P", password,
     "user", "enable", free_id],
    ["ipmitool", "-I", "lanplus", "-H", ip, "-U", username, "-P", password,
     "channel", "setaccess", "1", free_id, "ipmi=on", "link=on", "privilege=3"],
    ["ipmitool", "-I", "lanplus", "-H", ip, "-U", username, "-P", password,
     "user", "set", "password", free_id, new_user_password] ]

/-- The command loop of create_user (source lines 162-176): run each command in
order; a timeout or a non-zero exit stops the loop and yields that step's
failure message; none means every step exited 0.  The oracle maps an argument
vector to the outcome of executing it. -/
def create_user_run (oracle : List String → ExecResult) : List (List String) → Option String
  | [] => none
  | c :: rest =>
    match oracle c with
    | ExecResult.timeout => some "Timeout during user creation step"
    | ExecResult.exited rc _ stderr =>
      if rc ≠ 0 then some (pystrip stderr) else create_user_run oracle rest

/-- create_user (source lines 124-181): run the four commands in sequence,
return the first failure detail, or the success message naming the slot. -/
def create_user (oracle : List String → ExecResult)
    (ip username password free_id new_user_password target : String) : Bool × String :=
  match create_user_run oracle (create_user_cmds ip username password free_id new_user_password target) with
  | some msg => (false, msg)
  | none => (true, "Created user \x27" ++ target ++ "\x27 in slot " ++ free_id)

/-- Spec-side: whether one provisioning step succeeded (exited with code 0). -/
def stepOk : ExecResult → Bool
  | ExecResult.timeout => false
  | ExecResult.exited rc _ _ => rc == 0

/-- Spec-side: the failure detail the source produces for a failing step. -/
def stepFailMsg : ExecResult → String
  | ExecResult.timeout => "Timeout during user creation step"
  | ExecResult.exited _ _ stderr => (pystrip stderr)

/-- One password-rotation step with the source's retry policy
(source lines 198-201 and 212-215): attempt once; if that failed and
RETRIES is positive, attempt a second time.  The oracle maps the attempt
number (1 or 2) to the outcome of that attempt's command.  The second
component records the first attempt's failure message when a retry was
made (it is printed before retrying in the source). -/
def rotate_with_retry (ip : String) (oracle : Nat → ExecResult) :
    (Bool × String × String) × Option String :=
  let r1 := change_ipmi_password ip (oracle 1)
  if r1.1 = false ∧ RETRIES > 0 then
    (change_ipmi_password ip (oracle 2), some r1.2.2)
  else
    (r1, none)

/-- Spec-side: how many command attempts a rotation step consults. -/
def rotate_attempts (ip : String) (oracle : Nat → ExecResult) : Nat :=
  if (change_ipmi_password ip (oracle 1)).1 then 1
  else if RETRIES > 0 then 2 else 1

/-- Console messages printed by process_row, as structured events (the literal
text also carries color escape codes; only the event identity matters here). -/
inductive ConsoleEvent where
  | retryUser : String → String → ConsoleEvent
  | creatingUser : String → String → ConsoleEvent
  | createFailed : String → String → ConsoleEvent
  | noFreeSlots : String → ConsoleEvent
  | retryAdmin : String → String → ConsoleEvent
  deriving DecidableEq

/-- Everything one process_row call produces: the returned (success, ip,
message) triple, the bad-line log entries it wrote, and the console messages
it printed. -/
structure RowRun where
  result : Bool × String × String
  badlines : List String
  console : List ConsoleEvent
  deriving DecidableEq

/-- The external world one row interacts with: the outcome of the user-list
command, of each service-account rotation attempt (by attempt number), of
each provisioning command (by argument vector), and of each admin rotation
attempt (by attempt number). -/
structure Env where
  listRes : ExecResult
  userAttempt : Nat → ExecResult
  createRes : List String → ExecResult
  adminAttempt : Nat → ExecResult

/-- An Env in which every command yields the same fixed outcome. -/
def mkConstEnv (r : ExecResult) : Env := ⟨r, fun _ => r, fun _ => r, fun _ => r⟩

/-- Python repr of a list of strings, as interpolated into bad-line messages. -/
def rowRepr (row : List String) : String :=
  "[" ++ String.intercalate ", " (row.map (fun s => "\x27" ++ s ++ "\x27")) ++ "]"

/-- The service-account phase of process_row (source lines 195-210), run only
when a new service-account password was requested.  Its computed values are
dropped by the source (its locals are overwritten by the admin phase); only
its console output remains observable.  Python truthiness: an absent or empty
user_id falls through to the free-slot branch, an absent or empty free list
falls through to the no-slots branch. -/
def service_phase (env : Env) (ip username old_admin_password new_user_password : String) :
    List ConsoleEvent :=
  if new_user_password = "" then []
  else
    let r := find_user_id env.listRes "user"
    if r.1.getD "" ≠ "" then
      match (rotate_with_retry ip env.userAttempt).2 with
      | some m => [ConsoleEvent.retryUser ip m]
      | none => []
    else
      match r.2.1.getD [] with
      | first_free_id :: _ =>
        if (create_user env.createRes ip username old_admin_password first_free_id
            new_user_password "user").1 then
          [ConsoleEvent.creatingUser ip first_free_id]
        else
          [ConsoleEvent.creatingUser ip first_free_id,
           ConsoleEvent.createFailed ip
             (create_user env.createRes ip username old_admin_password first_free_id
               new_user_password "user").2]
      | [] => [ConsoleEvent.noFreeSlots ip]

/-- The admin phase of process_row (source lines 212-215): rotate the admin
password (fixed slot "2") with the retry policy; the returned triple is the
row's terminal result. -/
def admin_phase (env : Env) (ip : String) : (Bool × String × String) × List ConsoleEvent :=
  let ar := rotate_with_retry ip env.adminAttempt
  (ar.1,
   match ar.2 with
   | some m => [ConsoleEvent.retryAdmin ip m]
   | none => [])

/-- process_row (source lines 183-221): a row with a field count other than 5
is logged as a bad line and returned as an invalid-format failure; a 5-field
row with an empty required field (after stripping) is logged as a bad line and
returned as a missing-data failure; otherwise the service phase runs (console
only) and the admin phase's result is the row's result. -/
def process_row (env : Env) (row : List String) (line_num : Nat) : RowRun :=
  match row with
  | [a0, u0, o0, n0, s0] =>
    if (pystrip a0) = "" ∨ (pystrip u0) = "" ∨ (pystrip o0) = "" ∨ (pystrip n0) = "" then
      ⟨(false, "Line " ++ toString line_num ++ ": Missing data", rowRepr [a0, u0, o0, n0, s0]),
       ["Line " ++ toString line_num ++ ": Missing data: " ++ rowRepr [a0, u0, o0, n0, s0]],
       []⟩
    else
      ⟨(admin_phase env (pystrip a0)).1,
       [],
       service_phase env (pystrip a0) (pystrip u0) (pystrip o0) (pystrip s0) ++ (admin_phase env (pystrip a0)).2⟩
  | _ =>
    ⟨(false, "Line " ++ toString line_num ++ ": Invalid format", rowRepr row),
     ["Line " ++ toString line_num ++ ": Invalid format: " ++ rowRepr row],
     []⟩

/-- Spec-side validity test matching process_row's two checks: exactly five
fields and the four required fields non-empty after stripping. -/
def wellFormedRow (row : List String) : Bool :=
  match row with
  | [a0, u0, o0, n0, _s0] =>
    if (pystrip a0) = "" ∨ (pystrip u0) = "" ∨ (pystrip o0) = "" ∨ (pystrip n0) = "" then false else true
  | _ => false

/-- main's task creation (source lines 243-253): one process_row per input
record, with line numbers starting at 1. -/
def processAll (envs : Nat → Env) : Nat → List (List String) → List RowRun
  | _, [] => []
  | k, r :: rs => process_row (envs k) r k :: processAll envs (k + 1) rs

/-- The success log sink (source lines 264-268): one line per successful
result, in result order. -/
def successSink (runs : List RowRun) : List String :=
  runs.filterMap (fun rr =>
    if rr.result.1 then some (rr.result.2.1 ++ ": " ++ rr.result.2.2) else none)

/-- The failure log sink (source lines 269-272): one line per failed result,
in result order. -/
def failureSink (runs : List RowRun) : List String :=
  runs.filterMap (fun rr =>
    if rr.result.1 then none else some (rr.result.2.1 ++ ": " ++ rr.result.2.2))

/-- The bad-lines log sink: the entries written during row processing, in
order. -/
def badSink (runs : List RowRun) : List String :=
  (runs.map RowRun.badlines).flatten

/-- main (source lines 235-283): process every row, then partition the results
into the success, failure and bad-line sinks.  The summary counts are the
lengths of the first two sinks. -/
def runBatch (envs : Nat → Env) (rows : List (List String)) :
    List String × List String × List String :=
  (successSink (processAll envs 1 rows),
   failureSink (processAll envs 1 rows),
   badSink (processAll envs 1 rows))

/-- Events in a concurrency-limiter trace: acquiring the shared semaphore,
executing one external command, releasing the semaphore. -/
inductive Event where
  | acquire : Event
  | exec : List String → Event
  | release : Event
  deriving DecidableEq

/-- Whether a trace event is a command execution. -/
def isExec : Event → Bool
  | Event.exec _ => true
  | _ => false

/-- Number of command executions in a trace. -/
def execCount (tr : List Event) : Nat := tr.countP isExec

/-- Limiter trace of change_ipmi_password (source lines 32-44): the semaphore
is held for exactly its one command, and released unconditionally (the
`async with` releases on the timeout return and on exceptions too). -/
def change_ipmi_password_trace (cmd : List String) : List Event :=
  [Event.acquire, Event.exec cmd, Event.release]

/-- Limiter trace of find_user_id (source lines 80-92): the semaphore is held
for exactly its one command. -/
def find_user_id_trace (cmd : List String) : List Event :=
  [Event.acquire, Event.exec cmd, Event.release]

/-- The command executions of create_user's loop: each command in order until
the first failing one (inclusive), stopping early exactly where the source
returns. -/
def create_user_trace_run (oracle : List String → ExecResult) : List (List String) → List Event
  | [] => []
  | c :: rest =>
    Event.exec c ::
      (match oracle c with
       | ExecResult.timeout => []
       | ExecResult.exited rc _ _ =>
         if rc ≠ 0 then [] else create_user_trace_run oracle rest)

/-- Limiter trace of create_user (source lines 159-178): the semaphore is
acquired once, held across the whole command loop, and released at the end
(also on the timeout and non-zero-exit returns, via `async with`). -/
def create_user_trace (oracle : List String → ExecResult) (cmds : List (List String)) :
    List Event :=
  Event.acquire :: (create_user_trace_run oracle cmds ++ [Event.release])

/-! Helper lemmas. -/

/-- A row without exactly five fields lands in process_row's default arm. -/
lemma process_row_not5 (env : Env) (row : List String) (ln : Nat) (h : row.length ≠ 5) :
    process_row env row ln =
      ⟨(false, "Line " ++ toString ln ++ ": Invalid format", rowRepr row),
       ["Line " ++ toString ln ++ ": Invalid format: " ++ rowRepr row], []⟩ := by
  rcases row with _ | ⟨a, _ | ⟨u, _ | ⟨o, _ | ⟨n, _ | ⟨s, _ | ⟨f, t⟩⟩⟩⟩⟩⟩
  · rfl
  · rfl
  · rfl
  · rfl
  · rfl
  · simp at h
  · rfl

/-- A five-field row with an empty required field lands in the missing-data
arm. -/
lemma process_row_missing (env : Env) (a u o n s : String) (ln : Nat)
    (h : (pystrip a) = "" ∨ (pystrip u) = "" ∨ (pystrip o) = "" ∨ (pystrip n) = "") :
    process_row env [a, u, o, n, s] ln =
      ⟨(false, "Line " ++ toString ln ++ ": Missing data", rowRepr [a, u, o, n, s]),
       ["Line " ++ toString ln ++ ": Missing data: " ++ rowRepr [a, u, o, n, s]], []⟩ := by
  simp [process_row, h]

/-- A well-formed five-field row runs the service phase (console only) and
returns the admin phase's result. -/
lemma process_row_ok (env : Env) (a u o n s : String) (ln : Nat)
    (h : ¬((pystrip a) = "" ∨ (pystrip u) = "" ∨ (pystrip o) = "" ∨ (pystrip n) = "")) :
    process_row env [a, u, o, n, s] ln =
      ⟨(admin_phase env (pystrip a)).1, [],
       service_phase env (pystrip a) (pystrip u) (pystrip o) (pystrip s) ++ (admin_phase env (pystrip a)).2⟩ := by
  simp [process_row, h]

/-- The number of bad-line entries a row contributes: none when well formed,
one otherwise. -/
lemma process_row_badlines_length (env : Env) (row : List String) (ln : Nat) :
    (process_row env row ln).badlines.length = if wellFormedRow row then 0 else 1 := by
  rcases row with _ | ⟨a, _ | ⟨u, _ | ⟨o, _ | ⟨n, _ | ⟨s, _ | ⟨f, t⟩⟩⟩⟩⟩⟩
  · rfl
  · rfl
  · rfl
  · rfl
  · rfl
  · by_cases h : (pystrip a) = "" ∨ (pystrip u) = "" ∨ (pystrip o) = "" ∨ (pystrip n) = ""
    · rw [process_row_missing env a u o n s ln h]
      simp [wellFormedRow, h]
    · rw [process_row_ok env a u o n s ln h]
      simp [wellFormedRow, h]
  · rfl

/-- A malformed row's returned triple is a failure. -/
lemma process_row_result_false_of_malformed (env : Env) (row : List String) (ln : Nat)
    (h : wellFormedRow row = false) : (process_row env row ln).result.1 = false := by
  rcases row with _ | ⟨a, _ | ⟨u, _ | ⟨o, _ | ⟨n, _ | ⟨s, _ | ⟨f, t⟩⟩⟩⟩⟩⟩
  · rfl
  · rfl
  · rfl
  · rfl
  · rfl
  · by_cases hc : (pystrip a) = "" ∨ (pystrip u) = "" ∨ (pystrip o) = "" ∨ (pystrip n) = ""
    · rw [process_row_missing env a u o n s ln hc]
    · simp [wellFormedRow, hc] at h
  · rfl

/-- Every result lands in exactly one of the success and failure sinks. -/
lemma sink_lengths (runs : List RowRun) :
    (successSink runs).length + (failureSink runs).length = runs.length := by
  induction runs with
  | nil => rfl
  | cons rr rs ih =>
    by_cases h : rr.result.1 <;>
      simp [successSink, failureSink, List.filterMap_cons, h] at ih ⊢ <;> omega

/-- processAll produces one RowRun per input row. -/
lemma processAll_length (envs : Nat → Env) (k : Nat) (rows : List (List String)) :
    (processAll envs k rows).length = rows.length := by
  induction rows generalizing k with
  | nil => rfl
  | cons r rs ih => simp [processAll, ih]

/-- The bad-lines sink holds exactly one entry per malformed row. -/
lemma badSink_length (envs : Nat → Env) (k : Nat) (rows : List (List String)) :
    (badSink (processAll envs k rows)).length = rows.countP (fun r => !wellFormedRow r) := by
  induction rows generalizing k with
  | nil => rfl
  | cons r rs ih =>
    simp only [processAll, badSink, List.map_cons, List.flatten_cons, List.length_append,
      List.countP_cons]
    rw [process_row_badlines_length]
    have := ih (k + 1)
    simp only [badSink] at this
    by_cases h : wellFormedRow r <;> simp [h, this] <;> try omega

/-- Only well-formed rows can contribute to the success sink. -/
lemma successSink_le (envs : Nat → Env) (k : Nat) (rows : List (List String)) :
    (successSink (processAll envs k rows)).length ≤ rows.countP wellFormedRow := by
  induction rows generalizing k with
  | nil => simp [processAll, successSink]
  | cons r rs ih =>
    simp only [processAll, successSink, List.filterMap_cons, List.countP_cons]
    by_cases h : wellFormedRow r
    · by_cases hs : (process_row (envs k) r k).result.1
      · simp only [hs, if_pos, List.length_cons, h, if_true]
        have := ih (k + 1)
        simp only [successSink] at this
        omega
      · simp only [hs, if_neg, Bool.false_eq_true, not_false_eq_true, h, if_true]
        have := ih (k + 1)
        simp only [successSink] at this
        omega
    · have hf := process_row_result_false_of_malformed (envs k) r k (by simpa using h)
      simp only [hf, Bool.false_eq_true, if_neg, not_false_eq_true, h, if_false]
      have := ih (k + 1)
      simp only [successSink] at this
      omega

/-- The length of a list is the count of a predicate plus the count of its
negation. -/
lemma countP_total (rows : List (List String)) :
    rows.countP wellFormedRow + rows.countP (fun r => !wellFormedRow r) = rows.length := by
  induction rows with
  | nil => rfl
  | cons r rs ih =>
    simp only [List.countP_cons]
    by_cases h : wellFormedRow r <;> simp [h] <;> omega

/-- One step of create_user's loop, phrased with the spec-side step test. -/
lemma create_user_run_step (oracle : List String → ExecResult) (c : List String)
    (rest : List (List String)) :
    create_user_run oracle (c :: rest) =
      if stepOk (oracle c) then create_user_run oracle rest
      else some (stepFailMsg (oracle c)) := by
  cases h : oracle c with
  | timeout => simp [create_user_run, stepOk, stepFailMsg, h]
  | exited rc out err =>
    by_cases hrc : rc = 0 <;> simp [create_user_run, stepOk, stepFailMsg, h, hrc]

/-- The loop reports no failure iff every step exits 0. -/
lemma create_user_run_none_iff (oracle : List String → ExecResult)
    (cs : List (List String)) :
    create_user_run oracle cs = none ↔ ∀ c ∈ cs, stepOk (oracle c) = true := by
  induction cs with
  | nil => simp [create_user_run]
  | cons c rest ih =>
    rw [create_user_run_step]
    by_cases h : stepOk (oracle c)
    · simp [h, ih]
    · constructor
      · intro hnone; simp [h] at hnone
      · intro hall
        exact absurd (hall c (List.mem_cons_self c rest)) (by simp [h])

/-- The loop stops at the first failing step and reports its detail. -/
lemma create_user_run_firstfail (oracle : List String → ExecResult)
    (pre : List (List String)) (c : List String) (post : List (List String))
    (hpre : ∀ d ∈ pre, stepOk (oracle d) = true) (hc : stepOk (oracle c) = false) :
    create_user_run oracle (pre ++ c :: post) = some (stepFailMsg (oracle c)) := by
  induction pre with
  | nil =>
    rw [List.nil_append, create_user_run_step, if_neg]
    simp [hc]
  | cons d pre ih =>
    rw [List.cons_append, create_user_run_step, if_pos]
    · exact ih (fun x hx => hpre x (List.mem_cons_of_mem d hx))
    · exact (hpre d (List.mem_cons_self d pre))

/-- The stopped loop never consulted the oracle past the failing step: any
oracle agreeing up to and including it yields the same failure. -/
lemma create_user_run_congr (oracle oracle' : List String → ExecResult)
    (pre : List (List String)) (c : List String) (post : List (List String))
    (hpre : ∀ d ∈ pre, oracle' d = oracle d) (hok : ∀ d ∈ pre, stepOk (oracle d) = true)
    (hc : oracle' c = oracle c) (hcf : stepOk (oracle c) = false) :
    create_user_run oracle' (pre ++ c :: post) = some (stepFailMsg (oracle c)) := by
  have hpre' : ∀ d ∈ pre, stepOk (oracle' d) = true := fun d hd => by
    rw [hpre d hd]; exact hok d hd
  have h := create_user_run_firstfail oracle' pre c post hpre' (by rw [hc]; exact hcf)
  rw [h, hc]

/-- The user_id component of the fold ignores the free-list accumulator. -/
lemma fold_fst (target : String) (ls : List String) (u : Option String) (fr : List String) :
    (List.foldl (userListStep target) (u, fr) ls).1 = uidFold target u ls := by
  induction ls generalizing u fr with
  | nil => rfl
  | cons l ls ih =>
    simp only [List.foldl_cons, uidFold]
    cases hp : parseUserLine l with
    | none => simp [userListStep, matchOf, hp, ih, uidFold]
    | some p =>
      by_cases hm : pylower p.2 = pylower target <;>
        simp [userListStep, matchOf, hp, hm, ih, uidFold]

/-- The free-list component of the fold collects the free ids in order. -/
lemma fold_snd (target : String) (ls : List String) (u : Option String) (fr : List String) :
    (List.foldl (userListStep target) (u, fr) ls).2 = fr ++ ls.filterMap freeOf := by
  induction ls generalizing u fr with
  | nil => simp
  | cons l ls ih =>
    simp only [List.foldl_cons, List.filterMap_cons]
    cases hp : parseUserLine l with
    | none => simp [userListStep, freeOf, hp, ih]
    | some p =>
      by_cases he : p.2 = ""
      · by_cases hm : pylower p.2 = pylower target <;>
          simp [userListStep, freeOf, hp, he, hm, ih]
      · by_cases hm : pylower p.2 = pylower target <;>
          simp [userListStep, freeOf, hp, he, hm, ih]

/-- uidFold started from a present id stays present. -/
lemma uidFold_some (target : String) (i : String) (ls : List String) :
    uidFold target (some i) ls ≠ none := by
  induction ls generalizing i with
  | nil => simp [uidFold]
  | cons l ls ih =>
    simp only [uidFold, List.foldl_cons]
    cases hm : matchOf target l with
    | none => simpa [uidFold] using ih i
    | some j => simpa [uidFold] using ih j

/-- uidFold yields a present id whenever some line matches. -/
lemma uidFold_some_of_mem (target : String) (ls : List String) (u : Option String)
    (h : ∃ l ∈ ls, matchOf target l ≠ none) : uidFold target u ls ≠ none := by
  induction ls generalizing u with
  | nil => simp at h
  | cons l ls ih =>
    simp only [uidFold, List.foldl_cons]
    rcases h with ⟨w, hw, hmw⟩
    rcases List.mem_cons.mp hw with rfl | hw2
    · cases hm : matchOf target w with
      | none => exact absurd hm hmw
      | some j =>
        simp only [hm]
        exact uidFold_some target j ls
    · cases hm : matchOf target l with
      | none => exact ih u ⟨w, hw2, hmw⟩
      | some j =>
        simp only [hm]
        exact uidFold_some target j ls

/-- uidFold over lines none of which matches leaves the accumulator
untouched. -/
lemma uidFold_no_match (target : String) (u : Option String) (ls : List String)
    (h : ∀ l ∈ ls, matchOf target l = none) : uidFold target u ls = u := by
  induction ls generalizing u with
  | nil => rfl
  | cons l ls ih =>
    have hl : matchOf target l = none := h l (List.mem_cons_self l ls)
    simp only [uidFold, List.foldl_cons, hl]
    exact ih u (fun x hx => h x (List.mem_cons_of_mem l hx))

/-- A present uidFold result traces back to the initial value or a matching
line. -/
lemma uidFold_eq_some (target : String) (ls : List String) (u : Option String) (i : String)
    (h : uidFold target u ls = some i) :
    u = some i ∨ ∃ l ∈ ls, matchOf target l = some i := by
  induction ls generalizing u with
  | nil => exact Or.inl h
  | cons l ls ih =>
    simp only [uidFold, List.foldl_cons] at h
    cases hm : matchOf target l with
    | none =>
      rw [hm] at h
      rcases ih u h with h1 | ⟨w, hw, hmw⟩
      · exact Or.inl h1
      · exact Or.inr ⟨w, List.mem_cons_of_mem l hw, hmw⟩
    | some j =>
      rw [hm] at h
      rcases ih (some j) h with h1 | ⟨w, hw, hmw⟩
      · exact Or.inr ⟨l, List.mem_cons_self l ls, by rw [hm, h1]⟩
      · exact Or.inr ⟨w, List.mem_cons_of_mem l hw, hmw⟩

/-- Every event of create_user's command-loop trace is a command execution. -/
lemma create_user_trace_run_all_exec (oracle : List String → ExecResult)
    (cs : List (List String)) : (create_user_trace_run oracle cs).all isExec = true := by
  induction cs with
  | nil => rfl
  | cons c rest ih =>
    cases h : oracle c with
    | timeout => simp [create_user_trace_run, h, isExec]
    | exited rc out err =>
      by_cases hrc : rc = 0 <;> simp [create_user_trace_run, h, hrc, isExec, ih]

/-- The command loop executes at most one command per list entry. -/
lemma create_user_trace_run_length_le (oracle : List String → ExecResult)
    (cs : List (List String)) : (create_user_trace_run oracle cs).length ≤ cs.length := by
  induction cs with
  | nil => simp [create_user_trace_run]
  | cons c rest ih =>
    cases h : oracle c with
    | timeout => simp [create_user_trace_run, h]
    | exited rc out err =>
      by_cases hrc : rc = 0 <;> simp [create_user_trace_run, h, hrc] <;> try omega

/-- The command loop executes at least one command when given any. -/
lemma create_user_trace_run_length_pos (oracle : List String → ExecResult)
    (cs : List (List String)) (h : cs ≠ []) :
    1 ≤ (create_user_trace_run oracle cs).length := by
  cases cs with
  | nil => exact absurd rfl h
  | cons c rest =>
    cases hr : oracle c with
    | timeout => simp [create_user_trace_run, hr]
    | exited rc out err =>
      by_cases hrc : rc = 0 <;> simp [create_user_trace_run, hr, hrc]

/-! Claim theorems. -/

/-- Claim C1: for every input record, the terminal RowOutcome produced by
process_row is exactly the admin-phase rotation result; the admin phase is
always executed and the service-account phase never alters the row's final
result: the returned triple is invariant under every change of the
service-phase oracles (user-list outcome, service rotation attempts and
provisioning outcomes), and for a well-formed row it equals the admin
rotation-with-retry result. -/
theorem C1_admin_result_authoritative :
    (∀ (env env' : Env) (row : List String) (ln : Nat),
      env.adminAttempt = env'.adminAttempt →
      (process_row env row ln).result = (process_row env' row ln).result) ∧
    (∀ (env : Env) (a u o n s : String) (ln : Nat),
      ¬((pystrip a) = "" ∨ (pystrip u) = "" ∨ (pystrip o) = "" ∨ (pystrip n) = "") →
      (process_row env [a, u, o, n, s] ln).result =
        (rotate_with_retry (pystrip a) env.adminAttempt).1) := by
  constructor
  · intro env env' row ln h
    rcases row with _ | ⟨a, _ | ⟨u, _ | ⟨o, _ | ⟨n, _ | ⟨s, _ | ⟨f, t⟩⟩⟩⟩⟩⟩
    · rfl
    · rfl
    · rfl
    · rfl
    · rfl
    · by_cases hc : (pystrip a) = "" ∨ (pystrip u) = "" ∨ (pystrip o) = "" ∨ (pystrip n) = ""
      · rw [process_row_missing env a u o n s ln hc,
            process_row_missing env' a u o n s ln hc]
      · rw [process_row_ok env a u o n s ln hc, process_row_ok env' a u o n s ln hc]
        simp [admin_phase, h]
    · rfl
  · intro env a u o n s ln h
    rw [process_row_ok env a u o n s ln h]
    rfl

/-- Witness for C1 at concrete inputs: the service oracles (here: everything
timing out) do not change the result, and the result is the admin rotation. -/
theorem C1_witness :
    ((process_row (⟨ExecResult.timeout, fun _ => ExecResult.timeout,
          fun _ => ExecResult.timeout, fun _ => ExecResult.exited 0 "Password Set" ""⟩ : Env)
        ["10.0.0.5", "ADMIN", "oldpw", "newpw", "svcpw"] 1).result =
      (process_row (mkConstEnv (ExecResult.exited 0 "Password Set" ""))
        ["10.0.0.5", "ADMIN", "oldpw", "newpw", "svcpw"] 1).result) ∧
    ((process_row (mkConstEnv (ExecResult.exited 0 "Password Set" ""))
        ["10.0.0.5", "ADMIN", "oldpw", "newpw", "svcpw"] 1).result =
      (rotate_with_retry (pystrip "10.0.0.5")
        (mkConstEnv (ExecResult.exited 0 "Password Set" "")).adminAttempt).1) :=
  ⟨C1_admin_result_authoritative.1
      (⟨ExecResult.timeout, fun _ => ExecResult.timeout,
        fun _ => ExecResult.timeout, fun _ => ExecResult.exited 0 "Password Set" ""⟩ : Env)
      (mkConstEnv (ExecResult.exited 0 "Password Set" ""))
      ["10.0.0.5", "ADMIN", "oldpw", "newpw", "svcpw"] 1 rfl,
   C1_admin_result_authoritative.2 (mkConstEnv (ExecResult.exited 0 "Password Set" ""))
      "10.0.0.5" "ADMIN" "oldpw" "newpw" "svcpw" 1 (by decide)⟩

/-- Counterexample to claim C2: the 4-field line 10.0.0.5,ADMIN,oldpw,newpw is
not accepted; even with the external tool reporting exit 0 and output
containing Password Set, process_row treats it as malformed (bad-line entry,
invalid-format failure), not as a success. -/
theorem C2_counterexample :
    ((process_row (mkConstEnv (ExecResult.exited 0 "Password Set" ""))
        ["10.0.0.5", "ADMIN", "oldpw", "newpw"] 1).result =
      (false, "Line 1: Invalid format", rowRepr ["10.0.0.5", "ADMIN", "oldpw", "newpw"])) ∧
    ((process_row (mkConstEnv (ExecResult.exited 0 "Password Set" ""))
        ["10.0.0.5", "ADMIN", "oldpw", "newpw"] 1).badlines ≠ []) :=
  ⟨rfl, by decide⟩

/-- Claim C2 as amended: a well-formed record must have exactly 5 fields — any
other field count is malformed — while a 5-field record with an empty 5th
field is accepted and disables the service phase; the 5-field line
10.0.0.5,ADMIN,oldpw,newpw, with the tool exiting 0 and output containing
Password Set yields a success logged as
10.0.0.5: Password changed successfully. -/
theorem C2_amended_field_count :
    (∀ (env : Env) (row : List String) (ln : Nat), row.length ≠ 5 →
      (process_row env row ln).result =
        (false, "Line " ++ toString ln ++ ": Invalid format", rowRepr row) ∧
      (process_row env row ln).badlines =
        ["Line " ++ toString ln ++ ": Invalid format: " ++ rowRepr row]) ∧
    (∀ (env : Env) (a u o n : String) (ln : Nat),
      ¬((pystrip a) = "" ∨ (pystrip u) = "" ∨ (pystrip o) = "" ∨ (pystrip n) = "") →
      (process_row env [a, u, o, n, ""] ln).badlines = [] ∧
      (process_row env [a, u, o, n, ""] ln).result =
        (rotate_with_retry (pystrip a) env.adminAttempt).1 ∧
      (process_row env [a, u, o, n, ""] ln).console = (admin_phase env (pystrip a)).2) ∧
    (runBatch (fun _ => mkConstEnv (ExecResult.exited 0 "Password Set" ""))
        [["10.0.0.5", "ADMIN", "oldpw", "newpw", ""]] =
      (["10.0.0.5: Password changed successfully"], [], [])) := by
  refine ⟨?_, ?_, ?_⟩
  · intro env row ln h
    rw [process_row_not5 env row ln h]
    exact ⟨rfl, rfl⟩
  · intro env a u o n ln h
    rw [process_row_ok env a u o n "" ln h]
    refine ⟨rfl, rfl, ?_⟩
    simp [service_phase, show pystrip "" = "" from rfl]
  · rfl

/-- Witness for the amended C2: a 1-field row is malformed; a 5-field row with
an empty 5th field yields the admin rotation result. -/
theorem C2_witness :
    ((process_row (mkConstEnv ExecResult.timeout) ["a"] 3).result =
      (false, "Line 3: Invalid format", rowRepr ["a"])) ∧
    ((process_row (mkConstEnv (ExecResult.exited 0 "Password Set" ""))
        ["10.0.0.5", "ADMIN", "oldpw", "newpw", ""] 1).result =
      (rotate_with_retry (pystrip "10.0.0.5")
        (mkConstEnv (ExecResult.exited 0 "Password Set" "")).adminAttempt).1) :=
  ⟨(C2_amended_field_count.1 (mkConstEnv ExecResult.timeout) ["a"] 3 (by decide)).1,
   (C2_amended_field_count.2.1 (mkConstEnv (ExecResult.exited 0 "Password Set" ""))
      "10.0.0.5" "ADMIN" "oldpw" "newpw" 1 (by decide)).2.1⟩

/-- Counterexample to claim C3: a malformed row is not recorded only in the
bad-lines sink — process_row returns a failure triple for it, so main also
records it in the failure sink (and it counts as a failure in the summary). -/
theorem C3_counterexample :
    ((runBatch (fun _ => mkConstEnv ExecResult.timeout) [["oops"]]).2.1 =
      ["Line 1: Invalid format: [\x27oops\x27]"]) ∧
    ((runBatch (fun _ => mkConstEnv ExecResult.timeout) [["oops"]]).2.2 =
      ["Line 1: Invalid format: [\x27oops\x27]"]) ∧
    ((runBatch (fun _ => mkConstEnv ExecResult.timeout) [["oops"]]).1 = []) :=
  ⟨rfl, rfl, rfl⟩

/-- Claim C3 as amended: a malformed row is recorded in the bad-lines sink and
additionally — because process_row returns a failure triple for it — in the
failure sink and failure count; it never reaches the success sink or success
count. -/
theorem C3_amended_malformed_double_logged :
    (∀ (env : Env) (row : List String) (ln : Nat), wellFormedRow row = false →
      (process_row env row ln).result.1 = false ∧
      (process_row env row ln).badlines.length = 1) ∧
    (∀ (envs : Nat → Env) (rows : List (List String)),
      (runBatch envs rows).2.2.length = rows.countP (fun r => !wellFormedRow r) ∧
      (runBatch envs rows).1.length ≤ rows.countP wellFormedRow ∧
      rows.countP (fun r => !wellFormedRow r) ≤ (runBatch envs rows).2.1.length) := by
  constructor
  · intro env row ln h
    refine ⟨process_row_result_false_of_malformed env row ln h, ?_⟩
    rw [process_row_badlines_length]
    simp [h]
  · intro envs rows
    have h1 := sink_lengths (processAll envs 1 rows)
    have h2 := processAll_length envs 1 rows
    have h3 := badSink_length envs 1 rows
    have h4 := successSink_le envs 1 rows
    have h5 := countP_total rows
    refine ⟨?_, ?_, ?_⟩ <;> simp only [runBatch] <;> omega

/-- Witness for the amended C3: a concrete malformed row fails and writes one
bad-line entry. -/
theorem C3_witness :
    ((process_row (mkConstEnv ExecResult.timeout) ["oops"] 1).result.1 = false) ∧
    ((process_row (mkConstEnv ExecResult.timeout) ["oops"] 1).badlines.length = 1) :=
  ⟨(C3_amended_malformed_double_logged.1 (mkConstEnv ExecResult.timeout) ["oops"] 1
      (by decide)).1,
   (C3_amended_malformed_double_logged.1 (mkConstEnv ExecResult.timeout) ["oops"] 1
      (by decide)).2⟩

/-- Counterexample to claim C4: on an input of one malformed line, the three
sinks together hold two rows, not one — the malformed line is counted both as
a bad line and as a failure. -/
theorem C4_counterexample :
    ((runBatch (fun _ => mkConstEnv ExecResult.timeout) [["oops"]]).1.length +
        (runBatch (fun _ => mkConstEnv ExecResult.timeout) [["oops"]]).2.1.length +
        (runBatch (fun _ => mkConstEnv ExecResult.timeout) [["oops"]]).2.2.length = 2) ∧
    (([["oops"]] : List (List String)).length = 1) ∧
    ((runBatch (fun _ => mkConstEnv ExecResult.timeout) [["oops"]]).1.length +
        (runBatch (fun _ => mkConstEnv ExecResult.timeout) [["oops"]]).2.1.length +
        (runBatch (fun _ => mkConstEnv ExecResult.timeout) [["oops"]]).2.2.length ≠
      ([["oops"]] : List (List String)).length) :=
  ⟨rfl, rfl, by decide⟩

/-- Claim C4 as amended: successes plus failures equals the number of input
lines, and the total across all three sinks equals the number of input lines
plus the number of malformed lines (each malformed line appears twice: once
as a bad line and once as a failure). -/
theorem C4_amended_sink_accounting :
    ∀ (envs : Nat → Env) (rows : List (List String)),
      (runBatch envs rows).1.length + (runBatch envs rows).2.1.length = rows.length ∧
      (runBatch envs rows).1.length + (runBatch envs rows).2.1.length +
          (runBatch envs rows).2.2.length =
        rows.length + rows.countP (fun r => !wellFormedRow r) := by
  intro envs rows
  have h1 := sink_lengths (processAll envs 1 rows)
  have h2 := processAll_length envs 1 rows
  have h3 := badSink_length envs 1 rows
  constructor <;> simp only [runBatch] <;> omega

/-- Claim C5: for a password-change command invocation, exit 0 is a success
iff the output contains a recognized marker, otherwise an unexpected-output
failure; a non-zero exit is classified by the ordered substring rules
(authorization/password, hostname resolution, connection establishment,
invalid slot, generic with raw stderr), first match winning. -/
theorem C5_command_classification :
    ∀ (ip : String) (rc : Int) (out err : String),
      (rc = 0 →
        ((change_ipmi_password ip (ExecResult.exited rc out err)).1 = true ↔
          (containsStr (pystrip out) "Password" = true ∨ containsStr (pystrip out) "Set User" = true))) ∧
      (rc = 0 → containsStr (pystrip out) "Password" = false →
        containsStr (pystrip out) "Set User" = false →
        change_ipmi_password ip (ExecResult.exited rc out err) =
          (false, ip, "Unexpected success output: " ++ (pystrip out))) ∧
      (rc ≠ 0 →
        change_ipmi_password ip (ExecResult.exited rc out err) =
          (false, ip, classification_message (classify_stderr (pystrip err)) (pystrip err))) := by
  intro ip rc out err
  refine ⟨?_, ?_, ?_⟩
  · intro h0
    subst h0
    by_cases hP : containsStr (pystrip out) "Password" <;>
      by_cases hS : containsStr (pystrip out) "Set User" <;>
        simp [change_ipmi_password, hP, hS]
  · intro h0 hP hS
    subst h0
    simp [change_ipmi_password, hP, hS]
  · intro hne
    by_cases h1 : containsStr (pystrip err) "Unauthorized" || containsStr (pylower (pystrip err)) "password"
    · simp [change_ipmi_password, hne, h1, classify_stderr, stderr_rules,
        classification_message, List.find?]
    · by_cases h2 : containsStr (pylower (pystrip err)) "hostname" ||
          containsStr (pylower (pystrip err)) "could not resolve"
      · simp [change_ipmi_password, hne, h1, h2, classify_stderr, stderr_rules,
          classification_message, List.find?]
      · by_cases h3 : containsStr (pylower (pystrip err)) "unable to establish"
        · simp [change_ipmi_password, hne, h1, h2, h3, classify_stderr, stderr_rules,
            classification_message, List.find?]
        · by_cases h4 : containsStr (pystrip err) "Invalid user id"
          · simp [change_ipmi_password, hne, h1, h2, h3, h4, classify_stderr, stderr_rules,
              classification_message, List.find?]
          · simp [change_ipmi_password, hne, h1, h2, h3, h4, classify_stderr, stderr_rules,
              classification_message, List.find?]

/-- Witness for C5: exit 0 with output containing Password is a success, and a
non-zero exit with authorization text classifies as authentication failure. -/
theorem C5_witness :
    (((change_ipmi_password "10.0.0.5" (ExecResult.exited 0 "Password Set" "")).1 = true) ↔
      (containsStr (pystrip "Password Set") "Password" = true ∨
       containsStr (pystrip "Password Set") "Set User" = true)) ∧
    (change_ipmi_password "10.0.0.5" (ExecResult.exited 1 "" "Unauthorized name") =
      (false, "10.0.0.5",
        classification_message (classify_stderr (pystrip "Unauthorized name"))
          (pystrip "Unauthorized name"))) :=
  ⟨(C5_command_classification "10.0.0.5" 0 "Password Set" "").1 rfl,
   (C5_command_classification "10.0.0.5" 1 "" "Unauthorized name").2.2 (by decide)⟩

/-- Claim C6: each rotation step attempts once and retries exactly once on
failure (never more than 1 + RETRIES attempts, and the result never depends
on attempts beyond that bound), and a step failing once then succeeding on
the retry is a success — also at the row level for the admin phase. -/
theorem C6_retry_policy :
    ∀ (ip : String) (o : Nat → ExecResult),
      (rotate_attempts ip o ≤ 1 + RETRIES) ∧
      ((change_ipmi_password ip (o 1)).1 = false →
        rotate_with_retry ip o =
          (change_ipmi_password ip (o 2), some (change_ipmi_password ip (o 1)).2.2)) ∧
      ((change_ipmi_password ip (o 1)).1 = false → (change_ipmi_password ip (o 2)).1 = true →
        (rotate_with_retry ip o).1.1 = true) ∧
      (∀ o' : Nat → ExecResult,
        (∀ i, 1 ≤ i → i ≤ rotate_attempts ip o → o' i = o i) →
        rotate_with_retry ip o' = rotate_with_retry ip o) ∧
      (∀ (env : Env) (a u ol n s : String) (ln : Nat),
        ¬((pystrip a) = "" ∨ (pystrip u) = "" ∨ (pystrip ol) = "" ∨ (pystrip n) = "") →
        (change_ipmi_password (pystrip a) (env.adminAttempt 1)).1 = false →
        (change_ipmi_password (pystrip a) (env.adminAttempt 2)).1 = true →
        (process_row env [a, u, ol, n, s] ln).result.1 = true) := by
  intro ip o
  refine ⟨?_, ?_, ?_, ?_, ?_⟩
  · by_cases h : (change_ipmi_password ip (o 1)).1 <;> simp [rotate_attempts, RETRIES, h]
  · intro h
    simp [rotate_with_retry, RETRIES, h]
  · intro h1 h2
    simp [rotate_with_retry, RETRIES, h1, h2]
  · intro o' hag
    by_cases h : (change_ipmi_password ip (o 1)).1
    · have ha : rotate_attempts ip o = 1 := by simp [rotate_attempts, h]
      have hg1 : o' 1 = o 1 := hag 1 (by omega) (by omega)
      simp [rotate_with_retry, hg1, h]
    · have ha : rotate_attempts ip o = 2 := by simp [rotate_attempts, RETRIES, h]
      have hg1 : o' 1 = o 1 := hag 1 (by omega) (by omega)
      have hg2 : o' 2 = o 2 := hag 2 (by omega) (by omega)
      simp [rotate_with_retry, hg1, hg2]
  · intro env a u ol n s ln hwf h1 h2
    rw [process_row_ok env a u ol n s ln hwf]
    simp [admin_phase, rotate_with_retry, RETRIES, h1, h2]

/-- Witness for C6: an admin rotation failing with authentication text on the
first attempt and succeeding on the retry yields a successful step and a
successful row. -/
theorem C6_witness :
    ((rotate_with_retry "10.0.0.5"
        (fun i => if i = 1 then ExecResult.exited 1 "" "Unauthorized x"
                  else ExecResult.exited 0 "Password Set" "")).1.1 = true) ∧
    ((process_row (⟨ExecResult.timeout, fun _ => ExecResult.timeout,
          fun _ => ExecResult.timeout,
          fun i => if i = 1 then ExecResult.exited 1 "" "Unauthorized x"
                   else ExecResult.exited 0 "Password Set" ""⟩ : Env)
        ["10.0.0.5", "ADMIN", "oldpw", "newpw", ""] 7).result.1 = true) :=
  ⟨(C6_retry_policy "10.0.0.5"
      (fun i => if i = 1 then ExecResult.exited 1 "" "Unauthorized x"
                else ExecResult.exited 0 "Password Set" "")).2.2.1 (by decide) (by decide),
   (C6_retry_policy "x" (fun _ => ExecResult.timeout)).2.2.2.2
      (⟨ExecResult.timeout, fun _ => ExecResult.timeout,
        fun _ => ExecResult.timeout,
        fun i => if i = 1 then ExecResult.exited 1 "" "Unauthorized x"
                 else ExecResult.exited 0 "Password Set" ""⟩ : Env)
      "10.0.0.5" "ADMIN" "oldpw" "newpw" "" 7 (by decide) (by decide) (by decide)⟩

/-- Claim C7: create_user issues its four commands strictly in the order
set slot name, enable slot, grant privilege, set slot password; it succeeds
iff all four steps exit 0; it stops at the first failing step, returns that
step's failure detail, and never consults the oracle past that step (no
rollback is modelled — earlier steps' effects simply stand). -/
theorem C7_provisioning_sequence :
    ∀ (ip u p fid npw tgt : String) (oracle : List String → ExecResult),
      (create_user_cmds ip u p fid npw tgt =
        [ ["ipmitool", "-I", "lanplus", "-H", ip, "-U", u, "-P", p,
           "user", "set", "name", fid, tgt],
          ["ipmitool", "-I", "lanplus", "-H", ip, "-U", u, "-P", p,
           "user", "enable", fid],
          ["ipmitool", "-I", "lanplus", "-H", ip, "-U", u, "-P", p,
           "channel", "setaccess", "1", fid, "ipmi=on", "link=on", "privilege=3"],
          ["ipmitool", "-I", "lanplus", "-H", ip, "-U", u, "-P", p,
           "user", "set", "password", fid, npw] ]) ∧
      ((create_user oracle ip u p fid npw tgt).1 = true ↔
        ∀ c ∈ create_user_cmds ip u p fid npw tgt, stepOk (oracle c) = true) ∧
      (∀ (pre : List (List String)) (c : List String) (post : List (List String)),
        create_user_cmds ip u p fid npw tgt = pre ++ c :: post →
        (∀ d ∈ pre, stepOk (oracle d) = true) → stepOk (oracle c) = false →
        (create_user oracle ip u p fid npw tgt = (false, stepFailMsg (oracle c)) ∧
         (∀ oracle' : List String → ExecResult,
           (∀ d ∈ pre, oracle' d = oracle d) → oracle' c = oracle c →
           create_user oracle' ip u p fid npw tgt = (false, stepFailMsg (oracle c))))) := by
  intro ip u p fid npw tgt oracle
  refine ⟨rfl, ?_, ?_⟩
  · constructor
    · intro h
      cases hrun : create_user_run oracle (create_user_cmds ip u p fid npw tgt) with
      | none => exact (create_user_run_none_iff oracle _).mp hrun
      | some m => simp [create_user, hrun] at h
    · intro hall
      simp [create_user, (create_user_run_none_iff oracle _).mpr hall]
  · intro pre c post hsplit hpre hc
    have h1 := create_user_run_firstfail oracle pre c post hpre hc
    constructor
    · simp [create_user, hsplit, h1]
    · intro oracle' hpre' hc'
      have h2 := create_user_run_congr oracle oracle' pre c post hpre' hpre hc' hc
      simp [create_user, hsplit, h2]

/-- Witness for C7: with every step exiting 0 provisioning succeeds, and with
the first step timing out it fails with the timeout detail. -/
theorem C7_witness :
    ((create_user (fun _ => ExecResult.exited 0 "" "") "i" "u" "p" "3" "np" "user").1 = true) ∧
    (create_user (fun _ => ExecResult.timeout) "i" "u" "p" "3" "np" "user" =
      (false, stepFailMsg ExecResult.timeout)) :=
  ⟨((C7_provisioning_sequence "i" "u" "p" "3" "np" "user"
      (fun _ => ExecResult.exited 0 "" "")).2.1).mpr (fun c _ => rfl),
   ((C7_provisioning_sequence "i" "u" "p" "3" "np" "user" (fun _ => ExecResult.timeout)).2.2
      []
      ["ipmitool", "-I", "lanplus", "-H", "i", "-U", "u", "-P", "p",
       "user", "set", "name", "3", "user"]
      [ ["ipmitool", "-I", "lanplus", "-H", "i", "-U", "u", "-P", "p",
         "user", "enable", "3"],
        ["ipmitool", "-I", "lanplus", "-H", "i", "-U", "u", "-P", "p",
         "channel", "setaccess", "1", "3", "ipmi=on", "link=on", "privilege=3"],
        ["ipmitool", "-I", "lanplus", "-H", "i", "-U", "u", "-P", "p",
         "user", "set", "password", "3", "np"] ]
      rfl (by simp) rfl).1⟩

/-- Counterexample to claim C8: create_user does not reacquire the limiter per
step — it acquires the semaphore once around its whole loop, so with all four
steps succeeding its single acquire/release bracket spans four command
executions, not at most one. -/
theorem C8_counterexample :
    (execCount (create_user_trace (fun _ => ExecResult.exited 0 "" "")
        (create_user_cmds "10.0.0.5" "ADMIN" "oldpw" "3" "newpw" "user")) = 4) ∧
    ¬(execCount (create_user_trace (fun _ => ExecResult.exited 0 "" "")
        (create_user_cmds "10.0.0.5" "ADMIN" "oldpw" "3" "newpw" "user")) ≤ 1) :=
  ⟨rfl, by decide⟩

/-- Claim C8 as amended: change_ipmi_password and find_user_id each hold the
limiter token for exactly their one command and release it unconditionally;
create_user acquires the semaphore once and holds it across its whole command
loop (from one to four executions, stopping early on failure), releasing it
unconditionally at the end, including on timeout. -/
theorem C8_amended_limiter_scope :
    ∀ (cmd : List String) (oracle : List String → ExecResult) (ip u p fid npw tgt : String),
      (execCount (change_ipmi_password_trace cmd) = 1) ∧
      (change_ipmi_password_trace cmd = [Event.acquire, Event.exec cmd, Event.release]) ∧
      (execCount (find_user_id_trace cmd) = 1) ∧
      (find_user_id_trace cmd = [Event.acquire, Event.exec cmd, Event.release]) ∧
      (∃ mid : List Event,
        create_user_trace oracle (create_user_cmds ip u p fid npw tgt) =
          Event.acquire :: (mid ++ [Event.release]) ∧
        mid.all isExec = true ∧ 1 ≤ mid.length ∧ mid.length ≤ 4) := by
  intro cmd oracle ip u p fid npw tgt
  refine ⟨rfl, rfl, rfl, rfl,
    create_user_trace_run oracle (create_user_cmds ip u p fid npw tgt), rfl,
    create_user_trace_run_all_exec oracle _, ?_, ?_⟩
  · exact create_user_trace_run_length_pos oracle _ (by simp [create_user_cmds])
  · have := create_user_trace_run_length_le oracle (create_user_cmds ip u p fid npw tgt)
    simpa [create_user_cmds] using this

/-- Claim C9: the resolver skips the header line; among the remaining lines,
a case-insensitive name match yields the resolved id, an empty name marks a
free slot, and the free-slot list holds all such slots in output order — and
on a successful listing find_user_id returns exactly these parsed values with
no error. -/
theorem C9_account_resolution :
    ∀ target : String,
      (∀ out err : String, splitLines (pystrip out) ≠ [] →
        find_user_id (ExecResult.exited 0 out err) target =
          ((parse_user_list target (splitLines (pystrip out))).1,
           some (parse_user_list target (splitLines (pystrip out))).2, none)) ∧
      (∀ (h h2 : String) (rest : List String),
        parse_user_list target (h :: rest) = parse_user_list target (h2 :: rest)) ∧
      (∀ (h : String) (rest : List String),
        (parse_user_list target (h :: rest)).2 = rest.filterMap freeOf) ∧
      (∀ (h : String) (rest : List String),
        (∃ l ∈ rest, matchOf target l ≠ none) →
        (parse_user_list target (h :: rest)).1 ≠ none) ∧
      (∀ (h : String) (rest : List String) (i : String),
        (parse_user_list target (h :: rest)).1 = some i →
        ∃ l ∈ rest, matchOf target l = some i) := by
  intro target
  refine ⟨?_, ?_, ?_, ?_, ?_⟩
  · intro out err hne
    simp [find_user_id, hne]
  · intro h h2 rest
    rfl
  · intro h rest
    have := fold_snd target rest none []
    simpa [parse_user_list] using this
  · intro h rest hex
    have h1 := uidFold_some_of_mem target rest none hex
    have h2 := fold_fst target rest none []
    simpa [parse_user_list, h2] using h1
  · intro h rest i hi
    have h2 := fold_fst target rest none []
    rw [parse_user_list] at hi
    rw [List.drop_one] at hi
    simp only [List.tail_cons] at hi
    rw [h2] at hi
    rcases uidFold_eq_some target rest none i hi with h3 | h3
    · simp at h3
    · exact h3

/-- Witness for C9 on a concrete listing: header skipped, id 3 resolved for
the account named user. -/
theorem C9_witness :
    (find_user_id (ExecResult.exited 0 "ID,Name\n3,user" "x") "user" =
      ((parse_user_list "user" (splitLines (pystrip "ID,Name\n3,user"))).1,
       some (parse_user_list "user" (splitLines (pystrip "ID,Name\n3,user"))).2, none)) ∧
    ((parse_user_list "user" ("ID,Name" :: ["3,user"])).1 ≠ none) ∧
    (∃ l ∈ ["3,user"], matchOf "user" l = some "3") :=
  ⟨(C9_account_resolution "user").1 "ID,Name\n3,user" "x" (by decide),
   (C9_account_resolution "user").2.2.2.1 "ID,Name" ["3,user"]
      ⟨"3,user", by simp, by decide⟩,
   (C9_account_resolution "user").2.2.2.2 "ID,Name" ["3,user"] "3" (by decide)⟩

/-- Claim C10: with several case-insensitive name matches the resolver keeps
the id of the last matching line — each later match overwrites the earlier,
and any lines after the last match (matching none, whether parseable such as
free-slot lines or not) leave that id in place — and a non-header line
splitting into fewer than two fields is ignored entirely, so it neither
resolves nor counts as a free slot. -/
theorem C10_last_match_and_short_lines :
    ∀ (target h : String) (pre : List String) (L : String) (i n : String),
      (∀ post : List String, parseUserLine L = some (i, n) → pylower n = pylower target →
        (∀ l ∈ post, matchOf target l = none) →
        (parse_user_list target (h :: (pre ++ L :: post))).1 = some i) ∧
      (∀ post : List String, parseUserLine L = none →
        parse_user_list target (h :: (pre ++ L :: post)) =
          parse_user_list target (h :: (pre ++ post))) := by
  intro target h pre L i n
  constructor
  · intro post hL hm hpost
    have hmL : matchOf target L = some i := by simp [matchOf, hL, hm]
    calc (parse_user_list target (h :: (pre ++ L :: post))).1
        = uidFold target none (pre ++ L :: post) :=
          fold_fst target (pre ++ L :: post) none []
      _ = uidFold target (some i) post := by
          simp [uidFold, List.foldl_append, hmL]
      _ = some i := uidFold_no_match target (some i) post hpost
  · intro post hL
    show List.foldl (userListStep target) ((none, []) : Option String × List String)
        (pre ++ L :: post) =
      List.foldl (userListStep target) ((none, []) : Option String × List String)
        (pre ++ post)
    rw [List.foldl_append, List.foldl_append, List.foldl_cons]
    congr 1
    simp [userListStep, hL]

/-- Witness for C10: with matches in slots 3 and 5 followed by a free-slot
line and another non-matching parseable line, the resolver returns slot 5,
and a one-field line is ignored by the parse. -/
theorem C10_witness :
    ((parse_user_list "user"
        ("ID,Name" :: (["3,user"] ++ "5,user" :: ["8,", "7,other"]))).1 = some "5") ∧
    (parse_user_list "user" ("ID,Name" :: (["3,user"] ++ "7" :: ["8,"])) =
      parse_user_list "user" ("ID,Name" :: (["3,user"] ++ ["8,"]))) :=
  ⟨(C10_last_match_and_short_lines "user" "ID,Name" ["3,user"] "5,user" "5" "user").1
      ["8,", "7,other"] (by decide) (by decide) (by decide),
   (C10_last_match_and_short_lines "user" "ID,Name" ["3,user"] "7" "5" "user").2 ["8,"]
      (by decide)⟩

end PassChange
